import Mathlib

/-!
Shallow embedding of the anomaly-detection and trend-analysis engine of
`backend/app/services/anomaly_detection.py` (class `AnomalyDetector`).

Modelling conventions:
* Python floats are modelled as real numbers (`ℝ`).
* The storage collaborator `get_daily_totals(days)` is modelled as an abstract
  function `fetch : ℕ → List Point`: the series the database returns for a
  lookback of `days` days.  `detect_anomaly` calls it with 60, and
  `get_day_of_week_baseline` performs its own independent call with 60.
* A point's `date` is a `Day`: `weekday?` is `some w` when the Python date
  object has a `weekday()` method returning `w` (`hasattr(date, "weekday")`
  true), and `none` when it does not (e.g. a string date from SQLite).
* `datetime.utcnow().weekday()` is modelled by an explicit input `now : ℕ`:
  the current UTC weekday at the moment of the call.
* The unused `reference_date` parameter of `detect_anomaly` is kept as an
  argument of type `Option Day`.
* Python `values[-window:]` is `pySliceLast`: the whole list when the window
  is 0 (since `-0 == 0`), otherwise the last `window` elements.
-/

namespace Procoagent

/-- A calendar date as the engine sees it: it may or may not expose a
`weekday()` (Monday = 0 … Sunday = 6); `none` models a date value without
the attribute. -/
structure Day where
  weekday? : Option ℕ
deriving DecidableEq, Repr

/-- One element of the series returned by `get_daily_totals`:
`{"date": ..., "revenue": ...}`. -/
structure Point where
  date : Day
  revenue : ℝ

/-- Python slice `l[-w:]` (for nonnegative `w`): the whole list when `w = 0`,
otherwise the last `w` elements (all of `l` when `w ≥ len l`). -/
def pySliceLast (l : List ℝ) (w : ℕ) : List ℝ :=
  if w = 0 then l else l.drop (l.length - w)

/-- Arithmetic mean used by `statistics.stdev` internally. -/
noncomputable def listMean (l : List ℝ) : ℝ :=
  l.sum / l.length

/-- `statistics.stdev(values)`: the sample standard deviation, denominator
`n - 1`.  Only called on lists of length at least 2. -/
noncomputable def pyStdev (values : List ℝ) : ℝ :=
  Real.sqrt (((values.map (fun x => (x - listMean values) ^ 2)).sum) /
    ((values.length : ℝ) - 1))

/-- `AnomalyDetector.calculate_rolling_average(values, window)`. -/
noncomputable def calculate_rolling_average (values : List ℝ) (window : ℕ) : ℝ :=
  if values = [] then 0
  else if values.length < window then values.sum / values.length
  else (pySliceLast values window).sum / window

/-- `AnomalyDetector.calculate_std_dev(values)`: 0 below 2 values, otherwise
`statistics.stdev` (whose `StatisticsError` cannot fire past the guard). -/
noncomputable def calculate_std_dev (values : List ℝ) : ℝ :=
  if values.length < 2 then 0
  else pyStdev values

/-- `AnomalyDetector.calculate_z_score(value, mean, std_dev)`. -/
noncomputable def calculate_z_score (value mean std_dev : ℝ) : ℝ :=
  if std_dev = 0 then 0
  else (value - mean) / std_dev

/-- `AnomalyDetector.get_day_of_week_baseline(target_dow, days)`: performs its
own `get_daily_totals(days)` fetch, keeps the revenues of points whose date
has a weekday equal to `target_dow`, and averages them (0 when none match). -/
noncomputable def get_day_of_week_baseline
    (fetch : ℕ → List Point) (target_dow : ℕ) (days : ℕ) : ℝ :=
  let daily_totals := fetch days
  let dow_values :=
    (daily_totals.filter (fun p => p.date.weekday? = some target_dow)).map
      Point.revenue
  if dow_values = [] then 0
  else dow_values.sum / dow_values.length

/-- The dictionary returned by `detect_anomaly` on a positive verdict. -/
structure Verdict where
  detected : Bool
  today_revenue : ℝ
  rolling_avg_7 : ℝ
  rolling_avg_30 : ℝ
  z_score : ℝ
  drop_percent : ℝ
  severity : String
  dow_baseline : ℝ
  dow_adjusted : Bool
  std_dev : ℝ
  data_points : ℕ

/-- `AnomalyDetector._calculate_severity(z_score, drop_percent)`. -/
noncomputable def _calculate_severity (z_score drop_percent : ℝ) : String :=
  if z_score < -3 ∨ drop_percent > 40 then "high"
  else if z_score < -2 ∨ drop_percent > 25 then "medium"
  else "low"

/-- `AnomalyDetector.detect_anomaly(reference_date)`:
`none` models the Python `None` (no anomaly), `some v` the detected dict.
`fetch` is the storage collaborator, `threshold_std` the configured
threshold, `now` the current UTC weekday (used only by the
`hasattr` fallback), `reference_date` the accepted-but-unread parameter. -/
noncomputable def detect_anomaly (fetch : ℕ → List Point) (threshold_std : ℝ)
    (now : ℕ) (reference_date : Option Day) : Option Verdict :=
  let daily_totals := fetch 60
  if daily_totals.length < 7 then none
  else
    let revenues := daily_totals.map Point.revenue
    let today_revenue := revenues.getLast?.getD 0
    let historical_revenues :=
      if 1 < revenues.length then revenues.dropLast else revenues
    let rolling_avg_7 := calculate_rolling_average historical_revenues 7
    let rolling_avg_30 := calculate_rolling_average historical_revenues 30
    let std_dev := calculate_std_dev historical_revenues
    let z_score := calculate_z_score today_revenue rolling_avg_7 std_dev
    let today_date := (daily_totals.getLast?.map Point.date).getD ⟨some now⟩
    let today_dow := today_date.weekday?.getD now
    let dow_baseline := get_day_of_week_baseline fetch today_dow 60
    let drop_percent :=
      if rolling_avg_7 > 0 then
        (rolling_avg_7 - today_revenue) / rolling_avg_7 * 100
      else 0
    if z_score < -threshold_std ∧ drop_percent > 15 then
      some
        { detected := true
          today_revenue := today_revenue
          rolling_avg_7 := rolling_avg_7
          rolling_avg_30 := rolling_avg_30
          z_score := z_score
          drop_percent := drop_percent
          severity := _calculate_severity z_score drop_percent
          dow_baseline := dow_baseline
          dow_adjusted := if dow_baseline > 0 then true else false
          std_dev := std_dev
          data_points := historical_revenues.length }
    else none

/-- The dictionary returned by `get_trend_analysis`.  The short-series branch
returns a dict without the `first_week_avg` / `last_week_avg` keys: those
fields are `none` there. -/
structure TrendResult where
  direction : String
  change_percent : ℝ
  volatility : ℝ
  first_week_avg : Option ℝ
  last_week_avg : Option ℝ
  data_points : ℕ

/-- `AnomalyDetector.get_trend_analysis(days)`. -/
noncomputable def get_trend_analysis (fetch : ℕ → List Point) (days : ℕ) :
    TrendResult :=
  let daily_totals := fetch days
  if daily_totals.length < 7 then
    { direction := "unknown"
      change_percent := 0
      volatility := 0
      first_week_avg := none
      last_week_avg := none
      data_points := daily_totals.length }
  else
    let revenues := daily_totals.map Point.revenue
    let first_week_avg := calculate_rolling_average (revenues.take 7) 7
    let last_week_avg := calculate_rolling_average (pySliceLast revenues 7) 7
    let change_percent :=
      if first_week_avg > 0 then
        (last_week_avg - first_week_avg) / first_week_avg * 100
      else 0
    let direction :=
      if change_percent > 5 then "up"
      else if change_percent < -5 then "down"
      else "stable"
    let mean_revenue := if revenues = [] then 0 else revenues.sum / revenues.length
    let std_dev := calculate_std_dev revenues
    let volatility := if mean_revenue > 0 then std_dev / mean_revenue * 100 else 0
    { direction := direction
      change_percent := change_percent
      volatility := volatility
      first_week_avg := some first_week_avg
      last_week_avg := some last_week_avg
      data_points := revenues.length }

/-!
Checked semantics: the same engine with every partial Python primitive made
explicit.  A division yields `none` when the denominator is zero (Python
`ZeroDivisionError`), `statistics.stdev` yields `none` below 2 values
(`statistics.StatisticsError`), and `l[-1]` yields `none` on an empty list
(`IndexError`).  `none` at the top level means "this call would raise";
claim C7 states it never happens.
-/

/-- Checked real division: `none` on a zero denominator. -/
noncomputable def cdiv (a b : ℝ) : Option ℝ :=
  if b = 0 then none else some (a / b)

/-- Checked `statistics.stdev`: `StatisticsError` (modelled `none`) below two
values, the sample standard deviation otherwise. -/
noncomputable def pyStdevC (values : List ℝ) : Option ℝ :=
  if values.length < 2 then none else some (pyStdev values)

/-- Checked `l[-1]`: `IndexError` (modelled `none`) on the empty list. -/
def pyLastC (l : List ℝ) : Option ℝ :=
  l.getLast?

/-- Checked `calculate_rolling_average`. -/
noncomputable def calculate_rolling_averageC (values : List ℝ) (window : ℕ) :
    Option ℝ :=
  if values = [] then some 0
  else if values.length < window then cdiv values.sum values.length
  else cdiv (pySliceLast values window).sum window

/-- Checked `calculate_std_dev`: the `try/except StatisticsError` clause
turns a raised `StatisticsError` into 0. -/
noncomputable def calculate_std_devC (values : List ℝ) : Option ℝ :=
  if values.length < 2 then some 0
  else
    match pyStdevC values with
    | some s => some s
    | none => some 0

/-- Checked `calculate_z_score`. -/
noncomputable def calculate_z_scoreC (value mean std_dev : ℝ) : Option ℝ :=
  if std_dev = 0 then some 0
  else cdiv (value - mean) std_dev

/-- Checked `get_day_of_week_baseline`. -/
noncomputable def get_day_of_week_baselineC
    (fetch : ℕ → List Point) (target_dow : ℕ) (days : ℕ) : Option ℝ :=
  let daily_totals := fetch days
  let dow_values :=
    (daily_totals.filter (fun p => p.date.weekday? = some target_dow)).map
      Point.revenue
  if dow_values = [] then some 0
  else cdiv dow_values.sum dow_values.length

/-- Checked `detect_anomaly`: `some r` means the call returns `r` normally
(where `r : Option Verdict` is `None` or the detected dict), `none` means it
would raise. -/
noncomputable def detect_anomalyC (fetch : ℕ → List Point) (threshold_std : ℝ)
    (now : ℕ) (reference_date : Option Day) : Option (Option Verdict) :=
  let daily_totals := fetch 60
  if daily_totals.length < 7 then some none
  else
    let revenues := daily_totals.map Point.revenue
    (if revenues = [] then some 0 else pyLastC revenues).bind fun today_revenue =>
    let historical_revenues :=
      if 1 < revenues.length then revenues.dropLast else revenues
    (calculate_rolling_averageC historical_revenues 7).bind fun rolling_avg_7 =>
    (calculate_rolling_averageC historical_revenues 30).bind fun rolling_avg_30 =>
    (calculate_std_devC historical_revenues).bind fun std_dev =>
    (calculate_z_scoreC today_revenue rolling_avg_7 std_dev).bind fun z_score =>
    let today_date := (daily_totals.getLast?.map Point.date).getD ⟨some now⟩
    let today_dow := today_date.weekday?.getD now
    (get_day_of_week_baselineC fetch today_dow 60).bind fun dow_baseline =>
    (if rolling_avg_7 > 0 then
        (cdiv (rolling_avg_7 - today_revenue) rolling_avg_7).map (· * 100)
      else some 0).bind fun drop_percent =>
    if z_score < -threshold_std ∧ drop_percent > 15 then
      some (some
        { detected := true
          today_revenue := today_revenue
          rolling_avg_7 := rolling_avg_7
          rolling_avg_30 := rolling_avg_30
          z_score := z_score
          drop_percent := drop_percent
          severity := _calculate_severity z_score drop_percent
          dow_baseline := dow_baseline
          dow_adjusted := if dow_baseline > 0 then true else false
          std_dev := std_dev
          data_points := historical_revenues.length })
    else some none

/-- Checked `get_trend_analysis`. -/
noncomputable def get_trend_analysisC (fetch : ℕ → List Point) (days : ℕ) :
    Option TrendResult :=
  let daily_totals := fetch days
  if daily_totals.length < 7 then
    some
      { direction := "unknown"
        change_percent := 0
        volatility := 0
        first_week_avg := none
        last_week_avg := none
        data_points := daily_totals.length }
  else
    let revenues := daily_totals.map Point.revenue
    (calculate_rolling_averageC (revenues.take 7) 7).bind fun first_week_avg =>
    (calculate_rolling_averageC (pySliceLast revenues 7) 7).bind fun last_week_avg =>
    (if first_week_avg > 0 then
        (cdiv (last_week_avg - first_week_avg) first_week_avg).map (· * 100)
      else some 0).bind fun change_percent =>
    let direction :=
      if change_percent > 5 then "up"
      else if change_percent < -5 then "down"
      else "stable"
    (if revenues = [] then some 0
      else cdiv revenues.sum revenues.length).bind fun mean_revenue =>
    (calculate_std_devC revenues).bind fun std_dev =>
    (if mean_revenue > 0 then
        (cdiv std_dev mean_revenue).map (· * 100)
      else some 0).bind fun volatility =>
    some
      { direction := direction
        change_percent := change_percent
        volatility := volatility
        first_week_avg := some first_week_avg
        last_week_avg := some last_week_avg
        data_points := revenues.length }

/-!
A concrete 7-point fetched series used as a test vector: the first six
points carry weekday information (Monday 13, Tuesday 7, Wednesdays 11, 9,
10, 10), the last ("today", revenue 5) does not — so the engine falls back
to the current UTC weekday.  Historical mean 10, sample standard deviation
2, z-score -2.5, drop 50%.
-/

/-- The example series. -/
def exSeries : List Point :=
  [⟨⟨some 0⟩, 13⟩, ⟨⟨some 1⟩, 7⟩, ⟨⟨some 2⟩, 11⟩, ⟨⟨some 2⟩, 9⟩,
   ⟨⟨some 2⟩, 10⟩, ⟨⟨some 2⟩, 10⟩, ⟨⟨none⟩, 5⟩]

/-- A storage collaborator returning `exSeries` for any lookback. -/
def exFetch : ℕ → List Point := fun _ => exSeries

/-- The verdict on `exSeries` when the current UTC weekday is Monday (0):
the day-of-week baseline picks the Monday point, revenue 13. -/
noncomputable def exVerdict0 : Verdict :=
  { detected := true, today_revenue := 5, rolling_avg_7 := 10,
    rolling_avg_30 := 10, z_score := -(5 / 2), drop_percent := 50,
    severity := "high", dow_baseline := 13, dow_adjusted := true,
    std_dev := 2, data_points := 6 }

/-- The verdict on `exSeries` when the current UTC weekday is Tuesday (1):
the day-of-week baseline picks the Tuesday point, revenue 7. -/
noncomputable def exVerdict1 : Verdict :=
  { detected := true, today_revenue := 5, rolling_avg_7 := 10,
    rolling_avg_30 := 10, z_score := -(5 / 2), drop_percent := 50,
    severity := "high", dow_baseline := 7, dow_adjusted := true,
    std_dev := 2, data_points := 6 }

/-!
Agreement between the checked and the total semantics: every guarded
division really is guarded, so no checked operation ever yields `none`.
-/

theorem cdiv_eq_some (a b : ℝ) (hb : b ≠ 0) : cdiv a b = some (a / b) := by
  simp [cdiv, hb]

theorem pyLastC_ite_eq (l : List ℝ) :
    (if l = [] then some 0 else pyLastC l) = some (l.getLast?.getD 0) := by
  rcases l.eq_nil_or_concat with rfl | ⟨xs, x, rfl⟩
  · simp [pyLastC]
  · simp [pyLastC, List.getLast?_concat]

theorem length_cast_ne_zero {l : List ℝ} (h : l ≠ []) : (l.length : ℝ) ≠ 0 := by
  have : l.length ≠ 0 := fun hc => h (List.length_eq_zero.mp hc)
  exact_mod_cast this

theorem rollingC_eq (v : List ℝ) (w : ℕ) (hw : w ≠ 0) :
    calculate_rolling_averageC v w = some (calculate_rolling_average v w) := by
  unfold calculate_rolling_averageC calculate_rolling_average
  by_cases hv : v = []
  · rw [if_pos hv, if_pos hv]
  · rw [if_neg hv, if_neg hv]
    by_cases hsmall : v.length < w
    · rw [if_pos hsmall, if_pos hsmall, cdiv_eq_some _ _ (length_cast_ne_zero hv)]
    · have hw' : (w : ℝ) ≠ 0 := by exact_mod_cast hw
      rw [if_neg hsmall, if_neg hsmall, cdiv_eq_some _ _ hw']

theorem stdC_eq (v : List ℝ) :
    calculate_std_devC v = some (calculate_std_dev v) := by
  unfold calculate_std_devC calculate_std_dev pyStdevC
  by_cases h : v.length < 2 <;> simp [h]

theorem zC_eq (x m s : ℝ) :
    calculate_z_scoreC x m s = some (calculate_z_score x m s) := by
  unfold calculate_z_scoreC calculate_z_score
  by_cases hs : s = 0
  · simp [hs]
  · simp [hs, cdiv_eq_some _ _ hs]

theorem mean_ite_eq (l : List ℝ) :
    (if l = [] then some 0 else cdiv l.sum l.length) =
      some (if l = [] then (0 : ℝ) else l.sum / l.length) := by
  by_cases h : l = []
  · rw [if_pos h, if_pos h]
  · rw [if_neg h, if_neg h, cdiv_eq_some _ _ (length_cast_ne_zero h)]

theorem dowC_eq (fetch : ℕ → List Point) (dw days : ℕ) :
    get_day_of_week_baselineC fetch dw days =
      some (get_day_of_week_baseline fetch dw days) := by
  show (if _ = ([] : List ℝ) then some 0 else cdiv _ _) = _
  exact mean_ite_eq _

theorem ratio_ite_eq (a b : ℝ) :
    (if b > 0 then (cdiv a b).map (· * 100) else some 0) =
      some (if b > 0 then a / b * 100 else 0) := by
  by_cases h : b > 0
  · rw [if_pos h, if_pos h, cdiv_eq_some _ _ (ne_of_gt h)]
    rfl
  · rw [if_neg h, if_neg h]

theorem option_some_bind {α β : Type} (a : α) (f : α → Option β) :
    (Option.some a).bind f = f a := rfl

theorem detectC_eq (fetch : ℕ → List Point) (t : ℝ) (now : ℕ)
    (rd : Option Day) :
    detect_anomalyC fetch t now rd = some (detect_anomaly fetch t now rd) := by
  have r7 : ∀ v : List ℝ, calculate_rolling_averageC v 7 =
      some (calculate_rolling_average v 7) :=
    fun v => rollingC_eq v 7 (by norm_num)
  have r30 : ∀ v : List ℝ, calculate_rolling_averageC v 30 =
      some (calculate_rolling_average v 30) :=
    fun v => rollingC_eq v 30 (by norm_num)
  unfold detect_anomalyC detect_anomaly
  by_cases h7 : (fetch 60).length < 7
  · rw [if_pos h7, if_pos h7]
  · rw [if_neg h7, if_neg h7]
    simp only [pyLastC_ite_eq, r7, r30, stdC_eq, zC_eq, dowC_eq, ratio_ite_eq,
      option_some_bind]
    split <;> split <;> split <;> rfl

theorem trendC_eq (fetch : ℕ → List Point) (days : ℕ) :
    get_trend_analysisC fetch days = some (get_trend_analysis fetch days) := by
  have r7 : ∀ v : List ℝ, calculate_rolling_averageC v 7 =
      some (calculate_rolling_average v 7) :=
    fun v => rollingC_eq v 7 (by norm_num)
  unfold get_trend_analysisC get_trend_analysis
  by_cases h7 : (fetch days).length < 7
  · rw [if_pos h7, if_pos h7]
  · rw [if_neg h7, if_neg h7]
    simp only [r7, stdC_eq, ratio_ite_eq, mean_ite_eq, option_some_bind]

/-! Evaluation of the engine on the example series. -/

theorem exAvg7 : calculate_rolling_average ([13, 7, 11, 9, 10, 10] : List ℝ) 7 = 10 := by
  unfold calculate_rolling_average
  rw [if_neg (by simp), if_pos (by norm_num)]
  norm_num [List.sum_cons, List.sum_nil]

theorem exAvg30 : calculate_rolling_average ([13, 7, 11, 9, 10, 10] : List ℝ) 30 = 10 := by
  unfold calculate_rolling_average
  rw [if_neg (by simp), if_pos (by norm_num)]
  norm_num [List.sum_cons, List.sum_nil]

theorem exStd : calculate_std_dev ([13, 7, 11, 9, 10, 10] : List ℝ) = 2 := by
  unfold calculate_std_dev pyStdev
  rw [if_neg (by norm_num)]
  have h4 : ((([13, 7, 11, 9, 10, 10] : List ℝ).map
      (fun x => (x - listMean [13, 7, 11, 9, 10, 10]) ^ 2)).sum) /
        (((([13, 7, 11, 9, 10, 10] : List ℝ).length) : ℝ) - 1) = 4 := by
    norm_num [listMean, List.sum_cons, List.sum_nil]
  rw [h4, show (4 : ℝ) = 2 ^ 2 by norm_num,
    Real.sqrt_sq (by norm_num : (0 : ℝ) ≤ 2)]

theorem exZ : calculate_z_score 5 10 2 = -(5 / 2) := by
  unfold calculate_z_score
  rw [if_neg (by norm_num)]
  norm_num

theorem exDow0 : get_day_of_week_baseline exFetch 0 60 = 13 := by
  show (if ([13] : List ℝ) = [] then (0 : ℝ)
    else ([13] : List ℝ).sum / (([13] : List ℝ).length : ℝ)) = 13
  rw [if_neg (by simp)]
  norm_num

theorem exDow1 : get_day_of_week_baseline exFetch 1 60 = 7 := by
  show (if ([7] : List ℝ) = [] then (0 : ℝ)
    else ([7] : List ℝ).sum / (([7] : List ℝ).length : ℝ)) = 7
  rw [if_neg (by simp)]
  norm_num

theorem exDetect (now : ℕ) :
    detect_anomaly exFetch 2 now none =
      some { detected := true, today_revenue := 5, rolling_avg_7 := 10,
             rolling_avg_30 := 10, z_score := -(5 / 2), drop_percent := 50,
             severity := "high",
             dow_baseline := get_day_of_week_baseline exFetch now 60,
             dow_adjusted :=
               if get_day_of_week_baseline exFetch now 60 > 0 then true
               else false,
             std_dev := 2, data_points := 6 } := by
  unfold detect_anomaly
  rw [if_neg (by decide)]
  simp only []
  rw [show (exFetch 60).map Point.revenue = ([13, 7, 11, 9, 10, 10, 5] : List ℝ)
    from rfl]
  rw [show (if 1 < ([13, 7, 11, 9, 10, 10, 5] : List ℝ).length then
        ([13, 7, 11, 9, 10, 10, 5] : List ℝ).dropLast
      else ([13, 7, 11, 9, 10, 10, 5] : List ℝ)) = ([13, 7, 11, 9, 10, 10] : List ℝ)
    from by rw [if_pos (by norm_num)]; rfl]
  rw [show ([13, 7, 11, 9, 10, 10, 5] : List ℝ).getLast?.getD 0 = (5 : ℝ) from rfl]
  rw [exAvg7, exAvg30, exStd, exZ]
  rw [show ((exFetch 60).getLast?.map Point.date).getD ⟨some now⟩ = (⟨none⟩ : Day)
    from rfl]
  rw [show (Day.mk none).weekday?.getD now = now from rfl]
  rw [show (if (10 : ℝ) > 0 then ((10 : ℝ) - 5) / 10 * 100 else 0) = (50 : ℝ)
    from by rw [if_pos (by norm_num)]; norm_num]
  rw [if_pos (show (-(5 / 2) : ℝ) < -2 ∧ (50 : ℝ) > 15 from
    ⟨by norm_num, by norm_num⟩)]
  rw [show _calculate_severity (-(5 / 2) : ℝ) 50 = "high" from by
    unfold _calculate_severity
    rw [if_pos (Or.inr (by norm_num))]]
  rfl

theorem exDetect0 : detect_anomaly exFetch 2 0 none = some exVerdict0 := by
  rw [exDetect 0, exDow0]
  unfold exVerdict0
  norm_num

theorem exDetect1 : detect_anomaly exFetch 2 1 none = some exVerdict1 := by
  rw [exDetect 1, exDow1]
  unfold exVerdict1
  norm_num

theorem direction_string_iff (cp : ℝ) :
    ((if cp > 5 then "up" else if cp < -5 then "down" else "stable") = "up" ↔
      cp > 5) ∧
    ((if cp > 5 then "up" else if cp < -5 then "down" else "stable") = "down" ↔
      cp < -5) ∧
    ((if cp > 5 then "up" else if cp < -5 then "down" else "stable") = "stable" ↔
      (¬cp > 5 ∧ ¬cp < -5)) := by
  by_cases h1 : cp > 5
  · have h2 : ¬cp < -5 := by linarith
    rw [if_pos h1]
    simp +decide [h1, h2]
  · rw [if_neg h1]
    by_cases h2 : cp < -5
    · rw [if_pos h2]
      simp +decide [h1, h2]
    · rw [if_neg h2]
      simp +decide [h1, h2]

theorem severity_not_low_of_z {z d : ℝ} (hz : z < -2) :
    _calculate_severity z d = "medium" ∨ _calculate_severity z d = "high" := by
  unfold _calculate_severity
  by_cases h1 : z < -3 ∨ d > 40
  · rw [if_pos h1]
    right
    rfl
  · rw [if_neg h1, if_pos (Or.inl hz)]
    left
    rfl

/-! Claim theorems. -/

/-- C1: for every series of at least 7 daily points, `detect_anomaly` returns
a Detected verdict if and only if the z-score of today's revenue against the
7-day rolling average of the historical points is strictly below
`-threshold_std` AND `drop_percent` is strictly greater than 15; if either
condition fails the result is `NoAnomaly` (`none`). -/
theorem detect_anomaly_detected_iff (fetch : ℕ → List Point) (t : ℝ) (now : ℕ)
    (rd : Option Day) (h7 : 7 ≤ (fetch 60).length) :
    (detect_anomaly fetch t now rd).isSome ↔
      (let revenues := (fetch 60).map Point.revenue
       let historical :=
         if 1 < revenues.length then revenues.dropLast else revenues
       let z := calculate_z_score (revenues.getLast?.getD 0)
         (calculate_rolling_average historical 7) (calculate_std_dev historical)
       let drop :=
         if calculate_rolling_average historical 7 > 0 then
           (calculate_rolling_average historical 7 - revenues.getLast?.getD 0) /
             calculate_rolling_average historical 7 * 100
         else 0
       z < -t ∧ drop > 15) := by
  unfold detect_anomaly
  rw [if_neg (by omega)]
  simp only []
  split
  · simp_all
  · simp_all

/-- C1 witness: a concrete 7-point series satisfies the length hypothesis. -/
theorem detect_anomaly_detected_iff_witness :
    7 ≤ (((fun _ => List.replicate 7 (Point.mk ⟨some 0⟩ 10)) : ℕ → List Point) 60).length ∧
      ((detect_anomaly (fun _ => List.replicate 7 (Point.mk ⟨some 0⟩ 10)) 2 0 none).isSome ↔
        (let revenues := (((fun _ => List.replicate 7 (Point.mk ⟨some 0⟩ 10)) : ℕ → List Point) 60).map Point.revenue
         let historical :=
           if 1 < revenues.length then revenues.dropLast else revenues
         let z := calculate_z_score (revenues.getLast?.getD 0)
           (calculate_rolling_average historical 7) (calculate_std_dev historical)
         let drop :=
           if calculate_rolling_average historical 7 > 0 then
             (calculate_rolling_average historical 7 - revenues.getLast?.getD 0) /
               calculate_rolling_average historical 7 * 100
           else 0
         z < -(2 : ℝ) ∧ drop > 15)) :=
  ⟨by decide, detect_anomaly_detected_iff _ 2 0 none (by decide)⟩

/-- C2: any fetched series with fewer than 7 points (including the empty
series) makes `detect_anomaly` return `NoAnomaly` (`none`), carrying no
partial data. -/
theorem detect_anomaly_short_series_none (fetch : ℕ → List Point) (t : ℝ)
    (now : ℕ) (rd : Option Day) (h : (fetch 60).length < 7) :
    detect_anomaly fetch t now rd = none := by
  unfold detect_anomaly
  rw [if_pos h]

/-- C2 witness: the empty series yields `none`. -/
theorem detect_anomaly_short_series_none_witness :
    (((fun _ => []) : ℕ → List Point) 60).length < 7 ∧
      detect_anomaly (fun _ => []) 2 0 none = none :=
  ⟨by decide, detect_anomaly_short_series_none _ 2 0 none (by decide)⟩

/-- C3: `calculate_rolling_average` returns 0 on the empty sequence; the mean
of all of `v` when the window covers it; and the mean of exactly the last
`window` values when `v` has at least `window` elements. -/
theorem calculate_rolling_average_spec (v : List ℝ) (w : ℕ) :
    calculate_rolling_average [] w = 0 ∧
    (v ≠ [] → v.length ≤ w →
      calculate_rolling_average v w = v.sum / v.length) ∧
    (0 < w → w ≤ v.length →
      calculate_rolling_average v w = (v.drop (v.length - w)).sum / w) := by
  refine ⟨by unfold calculate_rolling_average; rw [if_pos rfl], ?_, ?_⟩
  · intro hv hw
    unfold calculate_rolling_average
    rw [if_neg hv]
    by_cases hlt : v.length < w
    · rw [if_pos hlt]
    · have heq : v.length = w := le_antisymm hw (not_lt.mp hlt)
      rw [if_neg hlt]
      unfold pySliceLast
      have hw0 : w ≠ 0 := by
        intro h0
        exact hv (List.length_eq_zero.mp (by omega))
      rw [if_neg hw0, heq, Nat.sub_self, List.drop_zero]
  · intro hw0 hwl
    unfold calculate_rolling_average
    have hv : v ≠ [] := by
      intro h0
      rw [h0] at hwl
      simp at hwl
      omega
    rw [if_neg hv, if_neg (by omega)]
    unfold pySliceLast
    rw [if_neg (by omega)]

/-- C3 witness: concrete instances of the short-history mean and of the
tail-window mean. -/
theorem calculate_rolling_average_spec_witness :
    calculate_rolling_average ([1, 2] : List ℝ) 7 =
        (([1, 2] : List ℝ).sum / (([1, 2] : List ℝ).length : ℝ)) ∧
      calculate_rolling_average ([1, 2, 3] : List ℝ) 2 =
        ((([1, 2, 3] : List ℝ).drop (([1, 2, 3] : List ℝ).length - 2)).sum / (2 : ℕ)) :=
  ⟨(calculate_rolling_average_spec [1, 2] 7).2.1 (by simp) (by simp),
   (calculate_rolling_average_spec [1, 2, 3] 2).2.2 (by norm_num) (by simp)⟩

/-- C4: `calculate_std_dev` returns 0 on sequences of 0 or 1 values, and on
2 or more values returns the sample standard deviation: the nonnegative root
of the squared-deviation sum divided by `n - 1`. -/
theorem calculate_std_dev_spec (v : List ℝ) :
    (v.length ≤ 1 → calculate_std_dev v = 0) ∧
    (2 ≤ v.length →
      0 ≤ calculate_std_dev v ∧
      calculate_std_dev v ^ 2 =
        ((v.map (fun x => (x - v.sum / v.length) ^ 2)).sum) /
          ((v.length : ℝ) - 1)) := by
  constructor
  · intro h1
    unfold calculate_std_dev
    rw [if_pos (by omega)]
  · intro h2
    unfold calculate_std_dev pyStdev listMean
    rw [if_neg (by omega)]
    have hS : 0 ≤ ((v.map (fun x => (x - v.sum / v.length) ^ 2)).sum) := by
      apply List.sum_nonneg
      intro x hx
      obtain ⟨a, _, rfl⟩ := List.mem_map.mp hx
      exact sq_nonneg _
    have hden : (0 : ℝ) ≤ (v.length : ℝ) - 1 := by
      have : (2 : ℝ) ≤ (v.length : ℝ) := by exact_mod_cast h2
      linarith
    exact ⟨Real.sqrt_nonneg _, Real.sq_sqrt (div_nonneg hS hden)⟩

/-- C4 witness: a concrete two-element list satisfies both parts. -/
theorem calculate_std_dev_spec_witness :
    calculate_std_dev ([5] : List ℝ) = 0 ∧
      0 ≤ calculate_std_dev ([1, 3] : List ℝ) ∧
      calculate_std_dev ([1, 3] : List ℝ) ^ 2 =
        ((([1, 3] : List ℝ).map
            (fun x => (x - ([1, 3] : List ℝ).sum / (([1, 3] : List ℝ).length : ℝ)) ^ 2)).sum) /
          (((([1, 3] : List ℝ).length : ℕ) : ℝ) - 1) :=
  ⟨(calculate_std_dev_spec [5]).1 (by simp),
   (calculate_std_dev_spec [1, 3]).2 (by simp)⟩

/-- C5: `_calculate_severity` returns "high" exactly when `z < -3` or
`drop > 40`, "medium" exactly when neither high-condition holds but `z < -2`
or `drop > 25`, and "low" exactly in the remaining (milder) cases — each
branch is a disjunction, and mild inputs give "low" rather than an error. -/
theorem calculate_severity_spec (z d : ℝ) :
    (_calculate_severity z d = "high" ↔ (z < -3 ∨ d > 40)) ∧
    (_calculate_severity z d = "medium" ↔
      (¬(z < -3 ∨ d > 40) ∧ (z < -2 ∨ d > 25))) ∧
    (_calculate_severity z d = "low" ↔
      (¬(z < -3 ∨ d > 40) ∧ ¬(z < -2 ∨ d > 25))) := by
  unfold _calculate_severity
  by_cases h1 : z < -3 ∨ d > 40
  · rw [if_pos h1]
    refine ⟨by simp [h1], by simp [h1], by simp [h1]⟩
  · rw [if_neg h1]
    by_cases h2 : z < -2 ∨ d > 25
    · rw [if_pos h2]
      refine ⟨by simp [h1, h2], by simp [h1, h2], by simp [h1, h2]⟩
    · rw [if_neg h2]
      refine ⟨by simp [h1, h2], by simp [h1, h2], by simp [h1, h2]⟩

/-- C5 witness: the spec's boundary examples, derived through the
characterization. -/
theorem calculate_severity_spec_witness :
    _calculate_severity (-(7 / 2) : ℝ) 30 = "high" ∧
      _calculate_severity (-(5 / 2) : ℝ) 45 = "high" ∧
      _calculate_severity (-(5 / 2) : ℝ) 30 = "medium" ∧
      _calculate_severity (-(9 / 5) : ℝ) 20 = "low" :=
  ⟨(calculate_severity_spec _ _).1.mpr (by norm_num),
   (calculate_severity_spec _ _).1.mpr (by norm_num),
   (calculate_severity_spec _ _).2.1.mpr (by norm_num),
   (calculate_severity_spec _ _).2.2.mpr (by norm_num)⟩

/-- C9: the `reference_date` argument of `detect_anomaly` is accepted but
never read: any two values give the same verdict. -/
theorem detect_anomaly_reference_date_irrelevant (fetch : ℕ → List Point)
    (t : ℝ) (now : ℕ) (rd rd' : Option Day) :
    detect_anomaly fetch t now rd = detect_anomaly fetch t now rd' := rfl

/-- C6: for at least 7 points, `get_trend_analysis` computes
`change_percent = (last_week_avg - first_week_avg) / first_week_avg * 100`
when `first_week_avg > 0` and 0 otherwise, with direction "up" exactly when
`change_percent > 5`, "down" exactly when `change_percent < -5`, "stable"
otherwise; below 7 points it returns direction "unknown", change 0,
volatility 0. -/
theorem get_trend_analysis_spec (fetch : ℕ → List Point) (days : ℕ) :
    ((fetch days).length < 7 →
      (get_trend_analysis fetch days).direction = "unknown" ∧
      (get_trend_analysis fetch days).change_percent = 0 ∧
      (get_trend_analysis fetch days).volatility = 0) ∧
    (7 ≤ (fetch days).length →
      (let revenues := (fetch days).map Point.revenue
       let fw := calculate_rolling_average (revenues.take 7) 7
       let lw := calculate_rolling_average (pySliceLast revenues 7) 7
       let cp := if fw > 0 then (lw - fw) / fw * 100 else 0
       (get_trend_analysis fetch days).change_percent = cp ∧
       ((get_trend_analysis fetch days).direction = "up" ↔ cp > 5) ∧
       ((get_trend_analysis fetch days).direction = "down" ↔ cp < -5) ∧
       ((get_trend_analysis fetch days).direction = "stable" ↔
         (¬cp > 5 ∧ ¬cp < -5)))) := by
  constructor
  · intro h
    unfold get_trend_analysis
    rw [if_pos h]
    exact ⟨rfl, rfl, rfl⟩
  · intro h
    unfold get_trend_analysis
    rw [if_neg (by omega)]
    exact ⟨rfl, (direction_string_iff _).1, (direction_string_iff _).2.1,
      (direction_string_iff _).2.2⟩

/-- C6 witness: the example series has 7 points, so the long branch applies. -/
theorem get_trend_analysis_spec_witness :
    7 ≤ (exFetch 60).length ∧
      (let revenues := (exFetch 60).map Point.revenue
       let fw := calculate_rolling_average (revenues.take 7) 7
       let lw := calculate_rolling_average (pySliceLast revenues 7) 7
       let cp := if fw > 0 then (lw - fw) / fw * 100 else 0
       (get_trend_analysis exFetch 60).change_percent = cp ∧
       ((get_trend_analysis exFetch 60).direction = "up" ↔ cp > 5) ∧
       ((get_trend_analysis exFetch 60).direction = "down" ↔ cp < -5) ∧
       ((get_trend_analysis exFetch 60).direction = "stable" ↔
         (¬cp > 5 ∧ ¬cp < -5))) :=
  ⟨by decide, (get_trend_analysis_spec exFetch 60).2 (by decide)⟩

/-- C7: no engine operation raises for any well-formed input: each checked
operation — in which every fallible Python primitive (division, stdev,
negative indexing) is explicit — completes and agrees with the total
semantics.  `calculate_rolling_average` is quantified over positive windows,
the contract stated by the spec (the engine itself only passes 7 and 30). -/
theorem engine_no_raise (fetch : ℕ → List Point) (v : List ℝ) (w : ℕ)
    (x m s t : ℝ) (now dw days : ℕ) (rd : Option Day) :
    (0 < w →
      calculate_rolling_averageC v w = some (calculate_rolling_average v w)) ∧
    calculate_std_devC v = some (calculate_std_dev v) ∧
    calculate_z_scoreC x m s = some (calculate_z_score x m s) ∧
    get_day_of_week_baselineC fetch dw days =
      some (get_day_of_week_baseline fetch dw days) ∧
    detect_anomalyC fetch t now rd = some (detect_anomaly fetch t now rd) ∧
    get_trend_analysisC fetch days = some (get_trend_analysis fetch days) :=
  ⟨fun hw => rollingC_eq v w (Nat.pos_iff_ne_zero.mp hw), stdC_eq v,
   zC_eq x m s, dowC_eq fetch dw days, detectC_eq fetch t now rd,
   trendC_eq fetch days⟩

/-- C7 witness: concrete instantiation, discharging the positive-window
hypothesis at window 7 on the empty list. -/
theorem engine_no_raise_witness :
    0 < 7 ∧
      calculate_rolling_averageC ([] : List ℝ) 7 =
        some (calculate_rolling_average ([] : List ℝ) 7) :=
  ⟨by decide, (engine_no_raise (fun _ => []) [] 7 0 0 0 0 0 0 0 none).1 (by decide)⟩

/-- C8 counterexample: the claim as stated is false.  With the example
series fixed (every storage fetch, including the independent day-of-week
fetch, returns `exSeries`) and the threshold fixed at the default 2, two
calls that observe different current UTC weekdays (Monday vs Tuesday) return
different verdicts: the last point's date lacks weekday information, so the
day-of-week baseline follows the clock (13 vs 7). -/
theorem detect_anomaly_now_dependent_cex :
    detect_anomaly exFetch 2 0 none ≠ detect_anomaly exFetch 2 1 none := by
  rw [exDetect0, exDetect1]
  intro h
  have h' := Option.some.inj h
  have hb := congrArg Verdict.dow_baseline h'
  norm_num [exVerdict0, exVerdict1] at hb

/-- C8 (amended): `detect_anomaly` is a pure function of the fetched series
and the configured threshold provided the last fetched point's date carries
weekday information; then two calls with the same fetched series produce
bit-identical verdicts regardless of the current UTC weekday (and of the
unread `reference_date`), with no hidden state across calls. -/
theorem detect_anomaly_pure_of_weekday (fetch : ℕ → List Point) (t : ℝ)
    (rd rd' : Option Day) (now now' : ℕ)
    (h : ∃ p w, (fetch 60).getLast? = some p ∧ p.date.weekday? = some w) :
    detect_anomaly fetch t now rd = detect_anomaly fetch t now' rd' := by
  obtain ⟨p, w, hp, hw⟩ := h
  unfold detect_anomaly
  simp only [hp, hw, Option.map_some', Option.getD_some]

/-- C8 witness: a series whose last point has a weekday gives the same
verdict at two different clock weekdays. -/
theorem detect_anomaly_pure_of_weekday_witness :
    detect_anomaly (fun _ => List.replicate 7 (Point.mk ⟨some 3⟩ 10)) 2 0 none =
      detect_anomaly (fun _ => List.replicate 7 (Point.mk ⟨some 3⟩ 10)) 2 5
        (some ⟨some 1⟩) :=
  detect_anomaly_pure_of_weekday _ 2 none (some ⟨some 1⟩) 0 5
    ⟨Point.mk ⟨some 3⟩ 10, 3, rfl, rfl⟩

/-- C10: whenever the configured threshold is at least 2 (as is the default
2.0), every Detected verdict has severity "medium" or "high", never "low":
the detection condition `z < -threshold_std` already implies the medium
branch's `z_score < -2`. -/
theorem detect_anomaly_severity_not_low (fetch : ℕ → List Point) (t : ℝ)
    (now : ℕ) (rd : Option Day) (v : Verdict) (ht : 2 ≤ t)
    (hv : detect_anomaly fetch t now rd = some v) :
    v.severity = "medium" ∨ v.severity = "high" := by
  unfold detect_anomaly at hv
  by_cases h7 : (fetch 60).length < 7
  · rw [if_pos h7] at hv
    exact absurd hv (by simp)
  · rw [if_neg h7] at hv
    simp only [] at hv
    rw [Option.ite_none_right_eq_some, Option.some.injEq] at hv
    obtain ⟨hcond, hv'⟩ := hv
    subst hv'
    exact severity_not_low_of_z (lt_of_lt_of_le hcond.1 (by linarith))

/-- C10 witness: on the example series with the default threshold 2 the
verdict's severity is not "low". -/
theorem detect_anomaly_severity_not_low_witness :
    (2 : ℝ) ≤ 2 ∧
      (exVerdict0.severity = "medium" ∨ exVerdict0.severity = "high") :=
  ⟨le_refl 2,
   detect_anomaly_severity_not_low exFetch 2 0 none exVerdict0 (le_refl 2)
     exDetect0⟩

end Procoagent
